import Mathlib

/- Shallow embedding of uk_weather_osc.py: a Tk application that polls the
Open-Meteo API for ten UK cities and republishes the numeric fields over OSC.
Pure helpers are translated directly; effectful boundaries (the HTTP layer,
UDP sends, clock reads, widget reads) are passed in as explicit inputs.
Machine floats are modelled as exact rationals. -/

namespace WeatherOSC

/-- Truncation toward zero, the semantics of the Python int builtin applied
to a real value. -/
def pyInt (q : ℚ) : ℤ := if 0 ≤ q then ⌊q⌋ else -⌊-q⌋

/-- Remainder carrying the sign of the divisor, the semantics of the Python
percent operator on reals; for positive b the result lies in [0, b). -/
def pyFloatMod (a b : ℚ) : ℚ := a - b * ⌊a / b⌋

/-- Compass table of deg_to_compass: 16 points clockwise from North. -/
def compassDirs : List String :=
  ["N","NNE","NE","ENE",
   "E","ESE","SE","SSE",
   "S","SSW","SW","WSW",
   "W","WNW","NW","NNW"]

/-- Translation of deg_to_compass: a missing argument gives the unknown
marker, otherwise idx = int((deg % 360) / 22.5 + 0.5) and the table is read
at idx % 16 (shown in bounds below, so the default of getD is unreachable). -/
def deg_to_compass (deg : Option ℚ) : String :=
  match deg with
  | none => "?"
  | some d =>
    let idx : ℤ := pyInt (pyFloatMod d 360 / 22.5 + 0.5)
    compassDirs.getD (Int.toNat (idx % 16)) "?"

/-- Modelled from the spec wording for the compass encoder (section 4.1), to
be compared with the translated deg_to_compass: normalize the angle into
[0, 360), divide by 22.5, round to the nearest integer half-up, take the
result modulo 16 and index the 16-point table. -/
def compass_spec (deg : Option ℚ) : String :=
  match deg with
  | none => "?"
  | some d =>
    let norm := pyFloatMod d 360
    let idx : ℤ := ⌊norm / 22.5 + 1/2⌋ % 16
    compassDirs.getD (Int.toNat idx) "?"

/-- One entry of the CITIES table. -/
structure City where
  name : String
  slug : String
  lat : ℚ
  lon : ℚ

/-- Translation of the CITIES table. -/
def CITIES : List City :=
  [{ name := "London",     slug := "london",     lat := 51.5085,  lon := -0.12574 },
   { name := "Manchester", slug := "manchester", lat := 53.48095, lon := -2.23743 },
   { name := "Birmingham", slug := "birmingham", lat := 52.48142, lon := -1.89983 },
   { name := "Glasgow",    slug := "glasgow",    lat := 55.8652,  lon := -4.25763 },
   { name := "Liverpool",  slug := "liverpool",  lat := 53.4106,  lon := -2.97794 },
   { name := "Leeds",      slug := "leeds",      lat := 53.7965,  lon := -1.54785 },
   { name := "Sheffield",  slug := "sheffield",  lat := 53.38297, lon := -1.4659 },
   { name := "Edinburgh",  slug := "edinburgh",  lat := 55.95206, lon := -3.19648 },
   { name := "Bristol",    slug := "bristol",    lat := 51.45451, lon := -2.58791 },
   { name := "Leicester",  slug := "leicester",  lat := 52.6386,  lon := -1.13169 }]

/-- JSON values as decoded by the json method of a requests response. -/
inductive Json where
  | null : Json
  | bool : Bool → Json
  | num : ℚ → Json
  | str : String → Json
  | arr : List Json → Json
  | obj : List (String × Json) → Json

/-- Lookup in a decoded JSON object, the semantics of dict.get with a None
default; the keys of a decoded object are unique. -/
def dictGet (fields : List (String × Json)) (k : String) : Option Json :=
  match fields with
  | [] => none
  | (k2, v) :: rest => if k2 = k then some v else dictGet rest k

/-- One completed HTTP response: status code and body; the body is none when
it does not parse as JSON, in which case the json method raises. -/
structure HttpResponse where
  status : Nat
  body : Option Json

/-- Result of the requests.get call itself: exn covers transport errors and
timeouts, resp is a completed response. -/
inductive FetchResp where
  | exn : FetchResp
  | resp : HttpResponse → FetchResp

/-- Reading built by fetch_city_weather: the four values of the returned
dict, each possibly absent, kept as raw decoded JSON. -/
structure RawReading where
  temperature : Option Json
  wind_speed : Option Json
  wind_dir : Option Json
  time : Option Json

/-- The dict literal returned by fetch_city_weather on the success path,
reading the four keys from the current object. -/
def extractCurrent (cf : List (String × Json)) : RawReading :=
  { temperature := dictGet cf "temperature_2m",
    wind_speed := dictGet cf "wind_speed_10m",
    wind_dir := dictGet cf "wind_direction_10m",
    time := dictGet cf "time" }

/-- Translation of fetch_city_weather. The try block covers the HTTP call,
raise_for_status (which raises for statuses 400 to 599) and JSON decoding:
any of those failing returns none, the Failed outcome. The extraction of
the current object sits below the try block, so dict.get applied to a
decoded value that is not an object raises AttributeError, modelled by the
error case. The request parameters built from the city are consumed by the
HTTP layer, whose answer arrives as the response argument. -/
def fetch_city_weather (city : City) (r : FetchResp) :
    Except String (Option RawReading) :=
  match r with
  | .exn => .ok none
  | .resp resp =>
    if 400 ≤ resp.status ∧ resp.status < 600 then .ok none
    else
      match resp.body with
      | none => .ok none
      | some data =>
        match data with
        | .obj fields =>
          match (dictGet fields "current").getD (Json.obj []) with
          | .obj cf => .ok (some (extractCurrent cf))
          | _ => .error "AttributeError"
        | _ => .error "AttributeError"

/-- Reading consumed by the update cycle, with the numeric fields as exact
rationals: the well-typed shape the provider answers with. -/
structure Reading where
  temperature : Option ℚ
  wind_speed : Option ℚ
  wind_dir : Option ℚ
  time : Option String
deriving DecidableEq

/-- One OSC message: address and its single float argument. -/
structure OscMessage where
  address : String
  value : ℚ
deriving DecidableEq

/-- Values written to one table row. -/
structure Row where
  city : String
  temp : String
  wind : String
  dir : String
  updated : String
deriving DecidableEq

/-- Per-city record of one tick: the row written for it, the messages that
went out, and the two error flags the loop can raise for it. -/
structure CityResult where
  slug : String
  row : Row
  sent : List OscMessage
  fetchErr : Bool
  pubErr : Bool
deriving DecidableEq

/-- Effect inputs of one tick: whether the OSC client construction
succeeded, the fetch outcome per city, which addresses fail to send, and
the three clock reads the body makes. -/
structure CycleInput where
  clientOk : Bool
  fetch : City → Option Reading
  sendFails : String → Bool
  now : String
  nowFull : String
  nowEnd : String

/-- Aggregate output of one tick. -/
structure CycleOutput where
  results : List CityResult
  errors : Nat
  status : String

/-- Round half to even, the rounding applied by Python fixed-point float
formatting. -/
def roundHalfEven (q : ℚ) : ℤ :=
  if q - ⌊q⌋ < 1/2 then ⌊q⌋
  else if 1/2 < q - ⌊q⌋ then ⌊q⌋ + 1
  else if ⌊q⌋ % 2 = 0 then ⌊q⌋ else ⌊q⌋ + 1

/-- Fixed-point formatting with one decimal place over exact rationals,
modelling the .1f format applied to temperature and wind speed. -/
def fmt1 (q : ℚ) : String :=
  let n := roundHalfEven (q * 10)
  (if n < 0 then "-" else "")
    ++ toString (n.natAbs / 10) ++ "." ++ toString (n.natAbs % 10)

/-- Fixed-point formatting with no decimals, modelling the .0f format
applied to the wind direction. -/
def fmt0 (q : ℚ) : String :=
  let n := roundHalfEven q
  (if n < 0 then "-" else "") ++ toString n.natAbs

/-- Messages the publish block builds for one city with an Ok reading, in
program order: one per present field, addressed under the slug of the city,
the single float argument being the field value (the raw degrees for the
wind direction). -/
def cityMessages (slug : String) (w : Reading) : List OscMessage :=
  (match w.temperature with
   | some t => [{ address := "/ukweather/" ++ slug ++ "/temperature", value := t }]
   | none => []) ++
  (match w.wind_speed with
   | some s => [{ address := "/ukweather/" ++ slug ++ "/wind_speed", value := s }]
   | none => []) ++
  (match w.wind_dir with
   | some d => [{ address := "/ukweather/" ++ slug ++ "/wind_dir_deg", value := d }]
   | none => [])

/-- Sequential sending under the single try block of the publish code: the
first failing send raises, so later messages of the same city are not
attempted, while messages before it have already gone out. Returns the sent
messages and whether the except branch ran. -/
def trySend (fails : String → Bool) : List OscMessage → List OscMessage × Bool
  | [] => ([], false)
  | m :: ms =>
    if fails m.address then ([], true)
    else
      let rest := trySend fails ms
      (m :: rest.1, rest.2)

/-- Body of the per-city loop of the update cycle: the fetch outcome is read
from the input; a failed fetch writes the ERR row and counts one error; an
Ok outcome writes the formatted row (with the wall-clock fallback when the
timestamp is missing or empty, matching the Python or-fallback) and, when
the OSC client exists, runs the publish block. -/
def processCity (inp : CycleInput) (city : City) : CityResult :=
  match inp.fetch city with
  | none =>
    { slug := city.slug,
      row := { city := city.name, temp := "ERR", wind := "ERR", dir := "ERR",
               updated := inp.now },
      sent := [], fetchErr := true, pubErr := false }
  | some w =>
    let ts := match w.time with
      | some t => if t = "" then inp.nowFull else t
      | none => inp.nowFull
    let dirStr := match w.wind_dir with
      | none => "-"
      | some d => fmt0 d ++ "° (" ++ deg_to_compass (some d) ++ ")"
    let tempStr := match w.temperature with
      | none => "-"
      | some t => fmt1 t
    let windStr := match w.wind_speed with
      | none => "-"
      | some s => fmt1 s
    let row : Row :=
      { city := city.name, temp := tempStr, wind := windStr, dir := dirStr,
        updated := ts }
    if inp.clientOk then
      let r := trySend inp.sendFails (cityMessages city.slug w)
      { slug := city.slug, row := row, sent := r.1, fetchErr := false,
        pubErr := r.2 }
    else
      { slug := city.slug, row := row, sent := [], fetchErr := false,
        pubErr := false }

/-- Errors contributed by one city to the tick counter: one when its fetch
failed, else one when its publish block raised. -/
def cityErrors (r : CityResult) : Nat :=
  (if r.fetchErr then 1 else 0) + (if r.pubErr then 1 else 0)

/-- Body of one tick of the update cycle after the running guard: the OSC
client construction outcome, fetch outcomes, send outcomes and clock reads
arrive as inputs; the tick walks CITIES in order, accumulates the error
counter and writes the final status line. A failed client construction is
reported transiently, contributes nothing to the error counter, and
suppresses every send of the tick. -/
def update_cycle (inp : CycleInput) : CycleOutput :=
  let results := CITIES.map (processCity inp)
  let errors := (results.map cityErrors).sum
  { results := results,
    errors := errors,
    status :=
      if errors = 0 then "Last update OK at " ++ inp.nowEnd
      else "Update had " ++ toString errors ++ " error(s) at " ++ inp.nowEnd }

/-- Modelled from the spec wording behind claim C3: the failed fetches plus
the publish send failures of the tick, where a failure caused by a
malformed or unreachable destination host or port (the client construction
failing) also counts as one. -/
def spec_error_count (inp : CycleInput) : Nat :=
  ((CITIES.map (processCity inp)).countP (fun r => r.fetchErr))
    + ((CITIES.map (processCity inp)).countP (fun r => r.pubErr))
    + (if inp.clientOk then 0 else 1)

/-- Number of present numeric fields of a reading. -/
def numPresent (w : Reading) : Nat :=
  (if w.temperature.isSome then 1 else 0)
    + (if w.wind_speed.isSome then 1 else 0)
    + (if w.wind_dir.isSome then 1 else 0)

/-- Mutable state of the application relevant to start and the slider. -/
structure AppState where
  running : Bool
  refresh_seconds : ℤ
deriving DecidableEq

/-- Outcome of the start button: the new state, whether the invalid-port
dialog fired, and whether an update cycle was triggered. -/
structure StartOutcome where
  state : AppState
  rejectedPort : Bool
  cycleTriggered : Bool
deriving DecidableEq

/-- Default refresh interval in seconds. -/
def DEFAULT_REFRESH_SECONDS : ℤ := 60

/-- Translation of start_updates. portRead is the attempted integer read of
the port entry, none when that read raises; an out-of-range value raises
ValueError inside the same try, landing in the same rejection branch. The
refresh interval takes no part in the validation. -/
def start_updates (s : AppState) (portRead : Option ℤ) : StartOutcome :=
  if s.running then
    { state := s, rejectedPort := false, cycleTriggered := false }
  else
    match portRead with
    | none => { state := s, rejectedPort := true, cycleTriggered := false }
    | some port =>
      if 1 ≤ port ∧ port ≤ 65535 then
        { state := { s with running := true }, rejectedPort := false,
          cycleTriggered := true }
      else { state := s, rejectedPort := true, cycleTriggered := false }

/-- Translation of the slider callback: the textual value parses to a real
(none when parsing raises) and is truncated to an integer, falling back to
the default interval on failure. -/
def on_refresh_scale_move (parsed : Option ℚ) : ℤ :=
  match parsed with
  | some v => pyInt v
  | none => DEFAULT_REFRESH_SECONDS

/-- First entry of CITIES, used at concrete inputs. -/
def london : City :=
  { name := "London", slug := "london", lat := 51.5085, lon := -0.12574 }

/-- Reading with every field present, used at concrete inputs. -/
def fullReading : Reading :=
  { temperature := some 15.2, wind_speed := some 9.4, wind_dir := some 250,
    time := some "2024-01-01T12:00" }

/-- Cycle input where the client construction failed and every fetch
succeeds. -/
def inpClientDown : CycleInput :=
  { clientOk := false, fetch := fun _ => some fullReading,
    sendFails := fun _ => false, now := "12:00:00",
    nowFull := "2024-01-01T12:00:00", nowEnd := "12:00:10" }

/-- Cycle input where only the London temperature send fails. -/
def inpTempSendFails : CycleInput :=
  { clientOk := true, fetch := fun _ => some fullReading,
    sendFails := fun a => a == "/ukweather/london/temperature",
    now := "12:00:00", nowFull := "2024-01-01T12:00:00", nowEnd := "12:00:10" }

/-- Cycle input with a working client and no send failures. -/
def inpAllOk : CycleInput :=
  { clientOk := true, fetch := fun _ => some fullReading,
    sendFails := fun _ => false, now := "12:00:00",
    nowFull := "2024-01-01T12:00:00", nowEnd := "12:00:10" }

/-- Cycle input like inpAllOk except that the Manchester fetch fails. -/
def inpManchesterDown : CycleInput :=
  { clientOk := true,
    fetch := fun c => if c.slug == "manchester" then none else some fullReading,
    sendFails := fun _ => false, now := "12:00:00",
    nowFull := "2024-01-01T12:00:00", nowEnd := "12:00:10" }

lemma pyFloatMod_nonneg (a : ℚ) {b : ℚ} (hb : 0 < b) : 0 ≤ pyFloatMod a b := by
  unfold pyFloatMod
  have h := Int.floor_le (a / b)
  have hba : b * (a / b) = a := by field_simp
  nlinarith [mul_le_mul_of_nonneg_left h hb.le]

lemma pyFloatMod_lt (a : ℚ) {b : ℚ} (hb : 0 < b) : pyFloatMod a b < b := by
  unfold pyFloatMod
  have h := Int.lt_floor_add_one (a / b)
  have hba : b * (a / b) = a := by field_simp
  nlinarith [mul_lt_mul_of_pos_left h hb]

lemma pyInt_of_nonneg {q : ℚ} (h : 0 ≤ q) : pyInt q = ⌊q⌋ := if_pos h

lemma compass_at (d : ℚ) (k : ℤ)
    (hk : pyInt (pyFloatMod d 360 / 22.5 + 0.5) = k) :
    deg_to_compass (some d) = compassDirs.getD (Int.toNat (k % 16)) "?" := by
  show compassDirs.getD
      (Int.toNat (pyInt (pyFloatMod d 360 / 22.5 + 0.5) % 16)) "?" = _
  rw [hk]

/-- C2 counterexample: at 347.5 degrees the code yields NNW, not N: the
computed index is int(347.5 / 22.5 + 0.5) = 15. -/
theorem c2_compass_counterexample :
    deg_to_compass (some 347.5) = "NNW" ∧ deg_to_compass (some 347.5) ≠ "N" := by
  have h : deg_to_compass (some 347.5) = "NNW" := by
    rw [compass_at 347.5 15 (by norm_num [pyInt, pyFloatMod])]
    decide
  exact ⟨h, by rw [h]; decide⟩

/-- C2 amended: an absent input yields the unknown marker, and otherwise the
code realizes exactly the spec algorithm (normalize into [0, 360), divide by
22.5, round half-up, reduce modulo 16, index the 16-point table from N
clockwise); the boundary values are compass(0) = N, compass(22.5) = NNE,
compass(360) = N and compass(347.5) = NNW, the N sector starting only at
348.75. -/
theorem c2_compass_behaviour (deg : Option ℚ) :
    deg_to_compass deg = compass_spec deg
    ∧ deg_to_compass none = "?"
    ∧ deg_to_compass (some 0) = "N"
    ∧ deg_to_compass (some 22.5) = "NNE"
    ∧ deg_to_compass (some 360) = "N"
    ∧ deg_to_compass (some 347.5) = "NNW" := by
  refine ⟨?_, rfl, ?_, ?_, ?_, ?_⟩
  · match deg with
    | none => rfl
    | some d =>
      have h1 : 0 ≤ pyFloatMod d 360 / 22.5 + 0.5 := by
        have hm : 0 ≤ pyFloatMod d 360 := pyFloatMod_nonneg d (by norm_num)
        positivity
      show compassDirs.getD
          (Int.toNat (pyInt (pyFloatMod d 360 / 22.5 + 0.5) % 16)) "?"
        = compassDirs.getD
          (Int.toNat (⌊pyFloatMod d 360 / 22.5 + 1/2⌋ % 16)) "?"
      rw [pyInt_of_nonneg h1]
      have h2 : (0.5 : ℚ) = 1/2 := by norm_num
      rw [h2]
  · rw [compass_at 0 0 (by norm_num [pyInt, pyFloatMod])]; decide
  · rw [compass_at 22.5 1 (by norm_num [pyInt, pyFloatMod])]; decide
  · rw [compass_at 360 0 (by norm_num [pyInt, pyFloatMod])]; decide
  · rw [compass_at 347.5 15 (by norm_num [pyInt, pyFloatMod])]; decide

/-- C10: for every direction value the computed index
int((deg % 360) / 22.5 + 0.5) % 16 lies in [0, 16), the table lookup is in
bounds, and the encoder returns one of the 16 labels. -/
theorem c10_compass_index_in_bounds (d : ℚ) :
    0 ≤ pyInt (pyFloatMod d 360 / 22.5 + 0.5) % 16
    ∧ pyInt (pyFloatMod d 360 / 22.5 + 0.5) % 16 < 16
    ∧ deg_to_compass (some d) ∈ compassDirs := by
  have h0 : (0:ℤ) ≤ pyInt (pyFloatMod d 360 / 22.5 + 0.5) % 16 :=
    Int.emod_nonneg _ (by norm_num)
  have h1 : pyInt (pyFloatMod d 360 / 22.5 + 0.5) % 16 < 16 :=
    Int.emod_lt_of_pos _ (by norm_num)
  refine ⟨h0, h1, ?_⟩
  have hk : Int.toNat (pyInt (pyFloatMod d 360 / 22.5 + 0.5) % 16) < 16 := by
    omega
  have mem : ∀ k : ℕ, k < 16 → compassDirs.getD k "?" ∈ compassDirs := by decide
  exact mem _ hk

/-- C1 counterexample: a 200 response whose body is valid JSON but not an
object (here the empty array) makes fetch_city_weather raise an uncaught
AttributeError instead of returning the Failed outcome. -/
theorem c1_fetch_counterexample :
    fetch_city_weather london (FetchResp.resp { status := 200, body := some (Json.arr []) })
      = Except.error "AttributeError" := rfl

/-- C1 amended: transport errors and timeouts, error HTTP statuses (400 to
599) and non-JSON bodies all make fetch_city_weather return the Failed
outcome without raising, and a JSON object body whose current member is
absent or an object yields a non-raising result; but a valid JSON body whose
top level is not an object, or whose current member is not an object, is the
one family of malformed responses that raises instead of returning Failed. -/
theorem c1_fetch_failure_paths (city : City) (r : FetchResp) :
    (r = FetchResp.exn → fetch_city_weather city r = Except.ok none)
    ∧ (∀ hr : HttpResponse, r = FetchResp.resp hr →
        400 ≤ hr.status → hr.status < 600 →
        fetch_city_weather city r = Except.ok none)
    ∧ (∀ hr : HttpResponse, r = FetchResp.resp hr → hr.body = none →
        fetch_city_weather city r = Except.ok none)
    ∧ (∀ (hr : HttpResponse) (fields : List (String × Json)),
        r = FetchResp.resp hr → hr.body = some (Json.obj fields) →
        (dictGet fields "current" = none
          ∨ ∃ cf, dictGet fields "current" = some (Json.obj cf)) →
        ∃ v, fetch_city_weather city r = Except.ok v) := by
  refine ⟨?_, ?_, ?_, ?_⟩
  · rintro rfl; rfl
  · rintro hr rfl h1 h2
    simp [fetch_city_weather, h1, h2]
  · rintro hr rfl hb
    by_cases h : 400 ≤ hr.status ∧ hr.status < 600 <;>
      simp [fetch_city_weather, hb, h]
  · rintro hr fields rfl hb hcur
    by_cases h : 400 ≤ hr.status ∧ hr.status < 600
    · exact ⟨none, by simp [fetch_city_weather, h]⟩
    · rcases hcur with hnone | ⟨cf, hcf⟩
      · exact ⟨some (extractCurrent []), by simp [fetch_city_weather, hb, h, hnone]⟩
      · exact ⟨some (extractCurrent cf), by simp [fetch_city_weather, hb, h, hcf]⟩

/-- Witness for c1_fetch_failure_paths: a 500 response with an unreadable
body is the Failed outcome. -/
theorem c1_fetch_failure_paths_witness :
    fetch_city_weather london (FetchResp.resp { status := 500, body := none })
      = Except.ok none :=
  (c1_fetch_failure_paths london
      (FetchResp.resp { status := 500, body := none })).2.1
    { status := 500, body := none } rfl (by decide) (by decide)

/-- C7: a successful response that is a JSON object exposing a current
object may lack any of the four individual fields; the fetch still returns
an Ok reading, with exactly those fields absent, never the Failed outcome. -/
theorem c7_missing_fields_preserved (city : City) (hr : HttpResponse)
    (fields cf : List (String × Json))
    (hs : hr.status < 400)
    (hb : hr.body = some (Json.obj fields))
    (hcur : dictGet fields "current" = some (Json.obj cf)) :
    fetch_city_weather city (FetchResp.resp hr)
      = Except.ok (some (extractCurrent cf))
    ∧ (dictGet cf "temperature_2m" = none → (extractCurrent cf).temperature = none)
    ∧ (dictGet cf "wind_speed_10m" = none → (extractCurrent cf).wind_speed = none)
    ∧ (dictGet cf "wind_direction_10m" = none → (extractCurrent cf).wind_dir = none)
    ∧ (dictGet cf "time" = none → (extractCurrent cf).time = none) := by
  have h : ¬(400 ≤ hr.status ∧ hr.status < 600) := by omega
  refine ⟨by simp [fetch_city_weather, hb, h, hcur], ?_, ?_, ?_, ?_⟩ <;>
    intro ha <;> simp [extractCurrent, ha]

/-- Witness for c7_missing_fields_preserved: a current object carrying only
the wind speed yields an Ok reading whose temperature is absent. -/
theorem c7_missing_fields_preserved_witness :
    fetch_city_weather london
        (FetchResp.resp
          { status := 200,
            body := some (Json.obj
              [("current", Json.obj [("wind_speed_10m", Json.num 5)])]) })
      = Except.ok (some (extractCurrent [("wind_speed_10m", Json.num 5)]))
    ∧ (extractCurrent [("wind_speed_10m", Json.num 5)]).temperature = none := by
  have h := c7_missing_fields_preserved london
    { status := 200,
      body := some (Json.obj
        [("current", Json.obj [("wind_speed_10m", Json.num 5)])]) }
    [("current", Json.obj [("wind_speed_10m", Json.num 5)])]
    [("wind_speed_10m", Json.num 5)]
    (by decide) rfl rfl
  exact ⟨h.1, h.2.1 rfl⟩

lemma update_cycle_results (inp : CycleInput) :
    (update_cycle inp).results = CITIES.map (processCity inp) := rfl

lemma processCity_slug (inp : CycleInput) (c : City) :
    (processCity inp c).slug = c.slug := by
  unfold processCity
  cases inp.fetch c with
  | none => rfl
  | some w => cases hc : inp.clientOk <;> simp [hc]

lemma trySend_eq (fails : String → Bool) (ms : List OscMessage) :
    trySend fails ms
      = (ms.takeWhile (fun m => !fails m.address),
         ms.any (fun m => fails m.address)) := by
  induction ms with
  | nil => rfl
  | cons m t ih =>
    simp only [trySend, List.takeWhile_cons, List.any_cons]
    cases h : fails m.address <;> simp [h, ih]

lemma sum_cityErrors (l : List CityResult) :
    (l.map cityErrors).sum
      = l.countP (fun r => r.fetchErr) + l.countP (fun r => r.pubErr) := by
  induction l with
  | nil => rfl
  | cons r t ih =>
    simp only [List.map_cons, List.sum_cons, List.countP_cons, ih, cityErrors]
    cases hf : r.fetchErr <;> cases hp : r.pubErr <;> simp <;> omega

/-- C9: every tick produces exactly one per-target entry per registered
city, and the order of the entries is the registry order: the result slugs
are the CITIES slugs in sequence. -/
theorem c9_per_target_shape (inp : CycleInput) :
    (update_cycle inp).results.length = CITIES.length
    ∧ (update_cycle inp).results.map (fun r => r.slug)
        = CITIES.map (fun c => c.slug) := by
  constructor
  · rw [update_cycle_results, List.length_map]
  · rw [update_cycle_results, List.map_map]
    exact List.map_congr_left (fun c _ => processCity_slug inp c)

/-- C8: failure isolation between targets: the per-target entry of a city
depends only on that city and the shared client, send and clock inputs, so
two ticks agreeing there produce the same entry at that position even when
every other fetch differs, and an Ok fetch always records a non-failed
entry. -/
theorem c8_failure_isolation (inp inp' : CycleInput) (i : ℕ) (c : City)
    (w : Reading)
    (hck : inp.clientOk = inp'.clientOk)
    (hsf : inp.sendFails = inp'.sendFails)
    (hn : inp.now = inp'.now)
    (hnf : inp.nowFull = inp'.nowFull)
    (hc : CITIES[i]? = some c)
    (hag : inp.fetch c = inp'.fetch c)
    (hok : inp.fetch c = some w) :
    (update_cycle inp).results[i]? = some (processCity inp c)
    ∧ (update_cycle inp').results[i]? = some (processCity inp c)
    ∧ (processCity inp c).fetchErr = false := by
  have hcongr : processCity inp c = processCity inp' c := by
    unfold processCity
    rw [hag, hck, hsf, hn, hnf]
  refine ⟨?_, ?_, ?_⟩
  · rw [update_cycle_results, List.getElem?_map, hc]; rfl
  · rw [update_cycle_results, List.getElem?_map, hc]
    show some (processCity inp' c) = some (processCity inp c)
    rw [hcongr]
  · unfold processCity
    rw [hok]
    cases hb : inp.clientOk <;> simp [hb]

/-- Witness for c8_failure_isolation at the London entry, with the
Manchester fetch failing in the second tick. -/
theorem c8_failure_isolation_witness :
    (update_cycle inpAllOk).results[0]? = some (processCity inpAllOk london)
    ∧ (update_cycle inpManchesterDown).results[0]?
        = some (processCity inpAllOk london)
    ∧ (processCity inpAllOk london).fetchErr = false :=
  c8_failure_isolation inpAllOk inpManchesterDown 0 london fullReading
    rfl rfl rfl rfl rfl rfl rfl

set_option maxHeartbeats 1000000 in
/-- C3 counterexample: when the OSC client construction fails (malformed
host or port) while every fetch succeeds and messages are due, the tick
reports zero errors and an OK status, although the spec counting (which
includes failures caused by a malformed or unreachable destination) demands
one. -/
theorem c3_error_count_counterexample :
    (update_cycle inpClientDown).errors = 0
    ∧ spec_error_count inpClientDown = 1
    ∧ (update_cycle inpClientDown).errors ≠ spec_error_count inpClientDown
    ∧ (update_cycle inpClientDown).status = "Last update OK at 12:00:10" := by
  refine ⟨by decide, by decide, by decide, by decide⟩

set_option maxHeartbeats 1600000 in
/-- C3 amended: the error count reported by the status line is the number of
failed fetches plus the number of targets whose publish block hit a send
failure; a failure to construct the client from the destination host and
port adds nothing to the count (it only suppresses the sends of the tick). -/
theorem c3_error_count (inp : CycleInput) :
    (update_cycle inp).errors
      = (update_cycle inp).results.countP (fun r => r.fetchErr)
        + (update_cycle inp).results.countP (fun r => r.pubErr)
    ∧ (update_cycle inp).status
      = (if (update_cycle inp).errors = 0
         then "Last update OK at " ++ inp.nowEnd
         else "Update had " ++ toString (update_cycle inp).errors
                ++ " error(s) at " ++ inp.nowEnd) := by
  constructor
  · exact sum_cityErrors (CITIES.map (processCity inp))
  · rfl

/-- C4 counterexample: London reports all three fields and only its
temperature send fails, yet nothing at all is sent for London: the wind
speed and direction messages, whose own sends would succeed, are never
attempted, the single try block having aborted on the first failure. -/
theorem c4_publish_abort_counterexample :
    ((update_cycle inpTempSendFails).results.map (fun r => (r.pubErr, r.sent)))[0]?
      = some (true, [])
    ∧ inpTempSendFails.sendFails "/ukweather/london/wind_speed" = false := by
  refine ⟨by decide, by decide⟩

/-- C4 amended: a send failure inside the publish block of one target is
caught and counted once for that target and does not stop the remaining
targets, every one of which is still processed; but it does abort the
remaining messages of that same target: exactly the messages before the
first failing one go out. -/
theorem c4_publish_failure_contained (inp : CycleInput) (city : City)
    (w : Reading)
    (hw : inp.fetch city = some w) (hc : inp.clientOk = true) :
    (processCity inp city).pubErr
        = (cityMessages city.slug w).any (fun m => inp.sendFails m.address)
    ∧ (processCity inp city).sent
        = (cityMessages city.slug w).takeWhile (fun m => !inp.sendFails m.address)
    ∧ (update_cycle inp).results = CITIES.map (processCity inp) := by
  refine ⟨?_, ?_, rfl⟩ <;>
    simp [processCity, hw, hc, trySend_eq]

/-- Witness for c4_publish_failure_contained at inpTempSendFails and
London. -/
theorem c4_publish_failure_contained_witness :
    (processCity inpTempSendFails london).pubErr
        = (cityMessages london.slug fullReading).any
            (fun m => inpTempSendFails.sendFails m.address)
    ∧ (processCity inpTempSendFails london).sent
        = (cityMessages london.slug fullReading).takeWhile
            (fun m => !inpTempSendFails.sendFails m.address)
    ∧ (update_cycle inpTempSendFails).results
        = CITIES.map (processCity inpTempSendFails) :=
  c4_publish_failure_contained inpTempSendFails london fullReading rfl rfl

/-- C5 counterexample: with the machine Idle, the refresh interval at 5 and
a valid port, start succeeds and triggers a cycle: an out-of-range refresh
interval is not rejected and does not keep the machine Idle. -/
theorem c5_start_counterexample :
    (start_updates { running := false, refresh_seconds := 5 } (some 9000)).state.running = true
    ∧ (start_updates { running := false, refresh_seconds := 5 } (some 9000)).rejectedPort = false
    ∧ (start_updates { running := false, refresh_seconds := 5 } (some 9000)).cycleTriggered = true := by
  refine ⟨by decide, by decide, by decide⟩

/-- C5 amended: start while Idle validates only the port: an unreadable or
out-of-range port is rejected with the error dialog, the state is unchanged
and no cycle is triggered, while a valid port starts the machine and
triggers the first cycle; the refresh interval is never examined by start:
it is the slider callback that keeps it inside [10, 300], storing the
truncation of the in-scale slider value or the default on a parse failure. -/
theorem c5_start_validation (s : AppState) (portRead : Option ℤ)
    (hidle : s.running = false) :
    (portRead = none →
      start_updates s portRead
        = { state := s, rejectedPort := true, cycleTriggered := false })
    ∧ (∀ p : ℤ, portRead = some p → ¬(1 ≤ p ∧ p ≤ 65535) →
      start_updates s portRead
        = { state := s, rejectedPort := true, cycleTriggered := false })
    ∧ (∀ p : ℤ, portRead = some p → 1 ≤ p → p ≤ 65535 →
      (start_updates s portRead).state.running = true
      ∧ (start_updates s portRead).cycleTriggered = true)
    ∧ (∀ v : ℚ, 10 ≤ v → v ≤ 300 →
      10 ≤ on_refresh_scale_move (some v)
      ∧ on_refresh_scale_move (some v) ≤ 300)
    ∧ on_refresh_scale_move none = DEFAULT_REFRESH_SECONDS := by
  refine ⟨?_, ?_, ?_, ?_, rfl⟩
  · rintro rfl
    simp [start_updates, hidle]
  · rintro p rfl hrange
    simp [start_updates, hidle, hrange]
  · rintro p rfl h1 h2
    simp [start_updates, hidle, h1, h2]
  · intro v hv1 hv2
    have hv0 : (0:ℚ) ≤ v := by linarith
    show 10 ≤ pyInt v ∧ pyInt v ≤ 300
    rw [pyInt_of_nonneg hv0]
    constructor
    · rw [Int.le_floor]; exact_mod_cast hv1
    · have := Int.floor_le v
      exact_mod_cast this.trans hv2

/-- Witness for c5_start_validation: starting Idle with port 70000 is
rejected and leaves the state unchanged. -/
theorem c5_start_validation_witness :
    start_updates { running := false, refresh_seconds := 60 } (some 70000)
      = { state := { running := false, refresh_seconds := 60 },
          rejectedPort := true, cycleTriggered := false } :=
  (c5_start_validation { running := false, refresh_seconds := 60 }
      (some 70000) rfl).2.1 70000 rfl (by decide)

lemma string_append_left_cancel {s a b : String} (h : s ++ a = s ++ b) :
    a = b := by
  have hd : (s ++ a).data = (s ++ b).data := by rw [h]
  rw [String.data_append, String.data_append] at hd
  exact String.ext (List.append_cancel_left hd)

lemma addr_ne_temp_speed (slug : String) :
    "/ukweather/" ++ slug ++ "/temperature"
      ≠ "/ukweather/" ++ slug ++ "/wind_speed" := by
  intro h
  exact absurd (string_append_left_cancel h) (by decide)

lemma addr_ne_temp_dir (slug : String) :
    "/ukweather/" ++ slug ++ "/temperature"
      ≠ "/ukweather/" ++ slug ++ "/wind_dir_deg" := by
  intro h
  exact absurd (string_append_left_cancel h) (by decide)

lemma addr_ne_speed_dir (slug : String) :
    "/ukweather/" ++ slug ++ "/wind_speed"
      ≠ "/ukweather/" ++ slug ++ "/wind_dir_deg" := by
  intro h
  exact absurd (string_append_left_cancel h) (by decide)

lemma sent_of_no_failure (inp : CycleInput) (city : City) (w : Reading)
    (hw : inp.fetch city = some w) (hc : inp.clientOk = true)
    (hnf : ∀ m ∈ cityMessages city.slug w, inp.sendFails m.address = false) :
    (processCity inp city).sent = cityMessages city.slug w := by
  have ht : (cityMessages city.slug w).takeWhile
      (fun m => !inp.sendFails m.address) = cityMessages city.slug w := by
    refine List.takeWhile_eq_self_iff.mpr ?_
    intro m hm
    simp [hnf m hm]
  simp [processCity, hw, hc, trySend_eq, ht]

/-- C6: for every target the publisher emits zero messages when the fetch
outcome is Failed; for an Ok outcome with a working client and no transport
failure it emits exactly one message per present field (at most three, no
placeholder for an absent field), each carrying one float argument equal to
the field value, the wind direction as raw degrees rather than a compass
label. -/
theorem c6_publisher_messages (inp : CycleInput) (city : City) :
    (inp.fetch city = none → (processCity inp city).sent = [])
    ∧ (∀ w : Reading, inp.fetch city = some w → inp.clientOk = true →
        (∀ m ∈ cityMessages city.slug w, inp.sendFails m.address = false) →
        (processCity inp city).sent.length = numPresent w
        ∧ numPresent w ≤ 3
        ∧ (∀ t, w.temperature = some t →
            ({ address := "/ukweather/" ++ city.slug ++ "/temperature",
               value := t } : OscMessage) ∈ (processCity inp city).sent)
        ∧ (∀ sp, w.wind_speed = some sp →
            ({ address := "/ukweather/" ++ city.slug ++ "/wind_speed",
               value := sp } : OscMessage) ∈ (processCity inp city).sent)
        ∧ (∀ d, w.wind_dir = some d →
            ({ address := "/ukweather/" ++ city.slug ++ "/wind_dir_deg",
               value := d } : OscMessage) ∈ (processCity inp city).sent)
        ∧ (w.temperature = none → ∀ v,
            ({ address := "/ukweather/" ++ city.slug ++ "/temperature",
               value := v } : OscMessage) ∉ (processCity inp city).sent)
        ∧ (w.wind_speed = none → ∀ v,
            ({ address := "/ukweather/" ++ city.slug ++ "/wind_speed",
               value := v } : OscMessage) ∉ (processCity inp city).sent)
        ∧ (w.wind_dir = none → ∀ v,
            ({ address := "/ukweather/" ++ city.slug ++ "/wind_dir_deg",
               value := v } : OscMessage) ∉ (processCity inp city).sent)) := by
  constructor
  · intro hw
    simp [processCity, hw]
  · intro w hw hc hnf
    rw [sent_of_no_failure inp city w hw hc hnf]
    rcases w with ⟨t, sp, d, ti⟩
    cases t <;> cases sp <;> cases d <;>
      simp [cityMessages, numPresent, OscMessage.mk.injEq,
        addr_ne_temp_speed city.slug, addr_ne_temp_dir city.slug,
        addr_ne_speed_dir city.slug,
        (addr_ne_temp_speed city.slug).symm, (addr_ne_temp_dir city.slug).symm,
        (addr_ne_speed_dir city.slug).symm]

/-- Witness for c6_publisher_messages: London with every field present and
no transport failure sends three messages, among them the temperature
message with its raw value. -/
theorem c6_publisher_messages_witness :
    (processCity inpAllOk london).sent.length = numPresent fullReading
    ∧ ({ address := "/ukweather/" ++ london.slug ++ "/temperature",
         value := 15.2 } : OscMessage) ∈ (processCity inpAllOk london).sent := by
  have h := (c6_publisher_messages inpAllOk london).2 fullReading rfl rfl
    (by intro m hm; rfl)
  exact ⟨h.1, h.2.2.1 15.2 rfl⟩

end WeatherOSC
